import Mathlib

/-!
Shallow embedding of `objdiff-core/src/config/mod.rs` (project configuration,
path resolution, config discovery, and the build invoker) together with
theorems settling the specification claims about it.

Filesystem paths are modelled as an absolute flag plus a list of components;
`Path.join` follows Rust `Path::join` semantics (an absolute right-hand side
replaces the left-hand side). External effects (the filesystem in
`try_project_config`, process execution and UTF-8 decoding in
`run_make_cmd`) are passed in as explicit oracles so that the pure control
flow of the source is captured exactly.
-/

namespace Objdiff

/-- Model of `std::path::PathBuf`: an absolute flag and path components. -/
structure Path where
  absolute : Bool
  components : List String
deriving DecidableEq

/-- Rust `Path::join`: if the pushed path is absolute it replaces the whole
path, otherwise its components are appended. -/
def Path.join (a b : Path) : Path :=
  if b.absolute then b else ⟨a.absolute, a.components ++ b.components⟩

/-- A relative single-component path (e.g. one of the config filenames). -/
def Path.rel1 (s : String) : Path := ⟨false, [s]⟩

/-- `Path::to_string_lossy` on our model (all components are valid UTF-8). -/
def Path.toStr (p : Path) : String :=
  (if p.absolute then "/" else "") ++ String.intercalate "/" p.components

/-- A glob pattern (`globset::Glob`), kept as its pattern string. -/
abbrev Glob := String

/-- `ScratchConfig` from `config/mod.rs`. -/
structure ScratchConfig where
  platform : Option String
  compiler : Option String
  c_flags : Option String
  ctx_path : Option Path
  build_ctx : Bool
deriving DecidableEq

/-- `ProjectObject` from `config/mod.rs`. -/
structure ProjectObject where
  name : Option String
  path : Option Path
  target_path : Option Path
  base_path : Option Path
  reverse_fn_order : Option Bool
  complete : Option Bool
  scratch : Option ScratchConfig
deriving DecidableEq

/-- The first statement of `ProjectObject::resolve_paths` (the target side):
if the target object directory is supplied, `self.path` is set and
`self.target_path` is unset, `target_path` becomes `target_obj_dir.join(path)`;
otherwise, if `target_path` is set, it becomes `project_dir.join(target_path)`;
otherwise it stays `None`. -/
def ProjectObject.resolveTargetStep (self : ProjectObject) (project_dir : Path)
    (target_obj_dir : Option Path) : ProjectObject :=
  match target_obj_dir, self.path, self.target_path with
  | some target_obj_dir, some path, none =>
    { self with target_path := some (target_obj_dir.join path) }
  | _, _, _ =>
    match self.target_path with
    | some path => { self with target_path := some (project_dir.join path) }
    | none => self

/-- The second statement of `ProjectObject::resolve_paths` (the base side),
symmetric to the target side. -/
def ProjectObject.resolveBaseStep (self : ProjectObject) (project_dir : Path)
    (base_obj_dir : Option Path) : ProjectObject :=
  match base_obj_dir, self.path, self.base_path with
  | some base_obj_dir, some path, none =>
    { self with base_path := some (base_obj_dir.join path) }
  | _, _, _ =>
    match self.base_path with
    | some path => { self with base_path := some (project_dir.join path) }
    | none => self

/-- `ProjectObject::resolve_paths`: the target-side statement followed by
the base-side statement. -/
def ProjectObject.resolve_paths (self : ProjectObject) (project_dir : Path)
    (target_obj_dir base_obj_dir : Option Path) : ProjectObject :=
  (self.resolveTargetStep project_dir target_obj_dir).resolveBaseStep project_dir base_obj_dir

/-- `ProjectConfig` from `config/mod.rs` (post-deserialization values). -/
structure ProjectConfig where
  min_version : Option String
  custom_make : Option String
  target_dir : Option Path
  base_dir : Option Path
  build_base : Bool
  build_target : Bool
  watch_patterns : Option (List Glob)
  objects : List ProjectObject
deriving DecidableEq

/-- The raw fields of a configuration document: `some v` when the field is
present with value `v`, `none` when the field is absent. -/
structure ProjectConfigInput where
  min_version : Option (Option String)
  custom_make : Option (Option String)
  target_dir : Option (Option Path)
  base_dir : Option (Option Path)
  build_base : Option Bool
  build_target : Option Bool
  watch_patterns : Option (Option (List Glob))
  objects : Option (List ProjectObject)
deriving DecidableEq

/-- A configuration document with every field absent. -/
def ProjectConfigInput.empty : ProjectConfigInput :=
  ⟨none, none, none, none, none, none, none, none⟩

/-- Serde deserialization of `ProjectConfig`: every field carries
`#[serde(default)]` except `build_base`, whose attribute is
`#[serde(default = "bool_true")]`. An absent field therefore takes the
type's `Default` value, and an absent `build_base` takes `true`. -/
def deserializeProjectConfig (i : ProjectConfigInput) : ProjectConfig :=
  { min_version := i.min_version.getD none
    custom_make := i.custom_make.getD none
    target_dir := i.target_dir.getD none
    base_dir := i.base_dir.getD none
    build_base := i.build_base.getD true
    build_target := i.build_target.getD false
    watch_patterns := i.watch_patterns.getD none
    objects := i.objects.getD [] }

/-- `CONFIG_FILENAMES` from `config/mod.rs`. -/
def CONFIG_FILENAMES : List String := ["objdiff.yml", "objdiff.yaml", "objdiff.json"]

/-- `DEFAULT_WATCH_PATTERNS` from `config/mod.rs`. -/
def DEFAULT_WATCH_PATTERNS : List Glob :=
  ["*.c", "*.cp", "*.cpp", "*.cxx", "*.h", "*.hp", "*.hpp", "*.hxx", "*.s", "*.S", "*.asm",
   "*.inc", "*.py", "*.yml", "*.txt", "*.json"]

/-- `str::contains` on string slices: substring containment. -/
def strContains (s sub : String) : Bool := decide (sub.data <:+: s.data)

/-- What the filesystem holds at a path, as seen by `try_project_config`:
the open call fails, the metadata call fails, the metadata says it is not a
regular file, or it is a regular file with a modification time and
contents. -/
inductive FileStat where
  | openErr
  | metaErr
  | notFile
  | regular (ts : Nat) (content : String)
deriving DecidableEq

/-- Whether a `FileStat` is a readable regular file. -/
def FileStat.isRegular : FileStat → Bool
  | .regular _ _ => true
  | _ => false

/-- `ProjectConfigInfo` from `config/mod.rs`. -/
structure ProjectConfigInfo where
  path : Path
  timestamp : Nat
deriving DecidableEq

/-- The format selection inside `try_project_config`: JSON when the filename
contains "json" (`filename.contains("json")`), YAML otherwise. -/
def parseForFilename (parseYml parseJson : String → Except String ProjectConfig)
    (filename content : String) : Except String ProjectConfig :=
  match strContains filename "json" with
  | true => parseJson content
  | false => parseYml content

/-- The loop body of `try_project_config` over the remaining candidate
filenames: a failed open, failed metadata call, or non-regular file moves to
the next candidate; the first regular file is parsed (JSON when the filename
contains "json", YAML otherwise) and returned together with its info. -/
def tryProjectConfigAux (fs : Path → FileStat)
    (parseYml parseJson : String → Except String ProjectConfig) (dir : Path) :
    List String → Option (Except String ProjectConfig × ProjectConfigInfo)
  | [] => none
  | filename :: rest =>
    let config_path := dir.join (Path.rel1 filename)
    match fs config_path with
    | .openErr => tryProjectConfigAux fs parseYml parseJson dir rest
    | .metaErr => tryProjectConfigAux fs parseYml parseJson dir rest
    | .notFile => tryProjectConfigAux fs parseYml parseJson dir rest
    | .regular ts content =>
      let config := parseForFilename parseYml parseJson filename content
      some (config, ⟨config_path, ts⟩)

/-- `try_project_config` from `config/mod.rs`, with the filesystem and the
two parsers passed as oracles. -/
def try_project_config (fs : Path → FileStat)
    (parseYml parseJson : String → Except String ProjectConfig) (dir : Path) :
    Option (Except String ProjectConfig × ProjectConfigInfo) :=
  tryProjectConfigAux fs parseYml parseJson dir CONFIG_FILENAMES

/-- `BuildConfig` from `config/mod.rs`. -/
structure BuildConfig where
  project_dir : Option Path
  custom_make : Option String
  selected_wsl_distro : Option String
deriving DecidableEq

/-- `BuildStatus` as constructed in `config/mod.rs`: the four fields set by
`run_make_cmd`, with `Default` giving `false` and empty strings. -/
structure BuildStatus where
  success : Bool := false
  cmdline : String := ""
  stdout : String := ""
  stderr : String := ""
deriving DecidableEq

/-- The raw output of a completed child process: an exit code (`none` when
the process was terminated by a signal) and the captured byte streams. -/
structure ProcOutput where
  code : Option Int
  stdout : List Nat
  stderr : List Nat
deriving DecidableEq

/-- The command line string built by `run_make_cmd`: the shell-escaped
program followed by each shell-escaped argument, space-separated. -/
def mkCmdline (escape : String → String) (program : String) (args : List String) : String :=
  args.foldl (fun acc a => acc ++ " " ++ escape a) (escape program)

/-- `run_make_cmd` from `config/mod.rs` (non-Windows branch): the program is
`custom_make` or `"make"`, the single argument is the target path; process
execution (`exec`, `none` meaning the spawn failed) and UTF-8 decoding
(`decode`, `none` meaning invalid UTF-8) are oracles. Errors carry the
`context` messages attached in the source. -/
def run_make_cmd (config : BuildConfig) (arg : Path)
    (escape : String → String) (exec : Option ProcOutput)
    (decode : List Nat → Option String) : Except String BuildStatus :=
  let make := config.custom_make.getD "make"
  let cmdline := mkCmdline escape make [arg.toStr]
  match exec with
  | none => .error "Failed to execute build"
  | some output =>
    match decode output.stdout with
    | none => .error "Failed to process stdout"
    | some out =>
      match decode output.stderr with
      | none => .error "Failed to process stderr"
      | some err =>
        .ok { success := output.code.getD (-1) == 0
              cmdline := cmdline
              stdout := out
              stderr := err }

/-- `run_make` from `config/mod.rs`: a missing `project_dir` short-circuits
to a failure status; otherwise the inner invocation runs and any error it
returns is converted into a failure status holding the error text. The
inner invocation (`run_make_cmd` in the source) is passed as a function of
the working directory and target; the `Bool` in the result records whether
it was invoked at all (i.e. whether a process could have been spawned). -/
def run_make (config : BuildConfig) (arg : Path)
    (inner : Path → Path → Except String BuildStatus) : BuildStatus × Bool :=
  match config.project_dir with
  | none => ({ success := false, stderr := "Missing project dir" }, false)
  | some cwd =>
    match inner cwd arg with
    | .ok status => (status, true)
    | .error e => ({ success := false, stderr := e }, true)

/-! Concrete instances used to evaluate the theorems on closed inputs. -/

/-- A concrete project directory. -/
def cexProjectDir : Path := ⟨true, ["proj"]⟩

/-- A concrete target-side output directory. -/
def cexTargetDir : Path := ⟨true, ["build", "target"]⟩

/-- A concrete declared (bare) unit path. -/
def cexUnitPath : Path := ⟨false, ["main.o"]⟩

/-- A concrete explicit target-side override path. -/
def cexOverride : Path := ⟨false, ["override", "main.o"]⟩

/-- A `ProjectObject` with a bare path and a target-side override both set. -/
def cexObject : ProjectObject :=
  ⟨none, some cexUnitPath, some cexOverride, none, none, none, none⟩

/-- A concrete project directory for config discovery. -/
def witDir : Path := ⟨true, ["repo"]⟩

/-- A concrete filesystem: `objdiff.yaml` and `objdiff.json` are both regular
files, `objdiff.yml` fails to open. -/
def witFs : Path → FileStat := fun p =>
  if p = witDir.join (Path.rel1 "objdiff.yaml") then FileStat.regular 5 "yaml-doc"
  else if p = witDir.join (Path.rel1 "objdiff.json") then FileStat.regular 7 "json-doc"
  else FileStat.openErr

/-- A concrete YAML parse oracle. -/
def witParseYml : String → Except String ProjectConfig :=
  fun _ => Except.ok (deserializeProjectConfig ProjectConfigInput.empty)

/-- A concrete JSON parse oracle. -/
def witParseJson : String → Except String ProjectConfig :=
  fun _ => Except.error "bad json"

/-- A `BuildConfig` with no project directory. -/
def witBuildCfgNoDir : BuildConfig := ⟨none, none, none⟩

/-- A `BuildConfig` with a project directory. -/
def witBuildCfgDir : BuildConfig := ⟨some ⟨true, ["proj"]⟩, none, none⟩

/-- A concrete make target argument. -/
def witArg : Path := ⟨false, ["obj", "main.o"]⟩

/-- An inner build invocation that fails with a spawn error. -/
def witInnerErr : Path → Path → Except String BuildStatus :=
  fun _ _ => Except.error "Failed to execute build"

/-- An identity shell-escape oracle. -/
def witEscape : String → String := fun s => s

/-- A concrete UTF-8 decode oracle. -/
def witDecode : List Nat → Option String :=
  fun b => if b = [1] then some "out-text" else some "err-text"

/-- A concrete completed process output with exit code 0. -/
def witOutput : ProcOutput := ⟨some 0, [1], [2]⟩

/-!  Theorems settling the claims. -/

/-- C10: `resolve_paths` modifies at most `target_path` and `base_path`; the
`name`, `path`, `reverse_fn_order`, `complete` and `scratch` fields are
unchanged by the call. -/
theorem resolve_paths_frame (obj : ProjectObject) (pd : Path) (tod bod : Option Path) :
    (obj.resolve_paths pd tod bod).name = obj.name ∧
    (obj.resolve_paths pd tod bod).path = obj.path ∧
    (obj.resolve_paths pd tod bod).reverse_fn_order = obj.reverse_fn_order ∧
    (obj.resolve_paths pd tod bod).complete = obj.complete ∧
    (obj.resolve_paths pd tod bod).scratch = obj.scratch := by
  rcases obj with ⟨n, p, tp, bp, r, c, s⟩
  cases tod <;> cases p <;> cases tp <;> cases bod <;> cases bp <;>
    simp [ProjectObject.resolve_paths, ProjectObject.resolveTargetStep, ProjectObject.resolveBaseStep]

/-- C9: with only a bare declared source path — no output directory supplied
for a side and no explicit override for that side — `resolve_paths` leaves
that side's path `none`. -/
theorem resolve_paths_unresolved (obj : ProjectObject) (pd : Path)
    (tod bod : Option Path) (p : Path) :
    (obj.path = some p → tod = none → obj.target_path = none →
      (obj.resolve_paths pd tod bod).target_path = none) ∧
    (obj.path = some p → bod = none → obj.base_path = none →
      (obj.resolve_paths pd tod bod).base_path = none) := by
  rcases obj with ⟨n, p', tp, bp, r, c, s⟩
  constructor
  · rintro rfl rfl rfl
    cases bod <;> cases bp <;> simp [ProjectObject.resolve_paths, ProjectObject.resolveTargetStep, ProjectObject.resolveBaseStep]
  · rintro rfl rfl rfl
    cases tod <;> cases tp <;> simp [ProjectObject.resolve_paths, ProjectObject.resolveTargetStep, ProjectObject.resolveBaseStep]

/-- C9 witness: an object with only a bare path resolves to `none` on both
sides when no directories and no overrides are given. -/
theorem resolve_paths_unresolved_witness :
    ((⟨none, some cexUnitPath, none, none, none, none, none⟩ :
        ProjectObject).resolve_paths cexProjectDir none none).target_path = none ∧
    ((⟨none, some cexUnitPath, none, none, none, none, none⟩ :
        ProjectObject).resolve_paths cexProjectDir none none).base_path = none :=
  ⟨(resolve_paths_unresolved _ cexProjectDir none none cexUnitPath).1 rfl rfl rfl,
   (resolve_paths_unresolved _ cexProjectDir none none cexUnitPath).2 rfl rfl rfl⟩

/-- C8: whenever an explicit override path is set for a side (in which case
the output-directory inference cannot fire for that side), `resolve_paths`
sets that side's path to `project_dir.join(override)`. -/
theorem resolve_paths_override (obj : ProjectObject) (pd : Path)
    (tod bod : Option Path) (o ob : Path) :
    (obj.target_path = some o →
      (obj.resolve_paths pd tod bod).target_path = some (pd.join o)) ∧
    (obj.base_path = some ob →
      (obj.resolve_paths pd tod bod).base_path = some (pd.join ob)) := by
  rcases obj with ⟨n, p', tp, bp, r, c, s⟩
  constructor
  · rintro rfl
    cases tod <;> cases p' <;> cases bod <;> cases bp <;>
      simp [ProjectObject.resolve_paths, ProjectObject.resolveTargetStep, ProjectObject.resolveBaseStep]
  · rintro rfl
    cases tod <;> cases p' <;> cases tp <;> cases bod <;>
      simp [ProjectObject.resolve_paths, ProjectObject.resolveTargetStep, ProjectObject.resolveBaseStep]

/-- C8 witness: an override with no bare path and no directories resolves
project-relative. -/
theorem resolve_paths_override_witness :
    ((⟨none, none, some cexOverride, none, none, none, none⟩ :
        ProjectObject).resolve_paths cexProjectDir none none).target_path =
      some (cexProjectDir.join cexOverride) :=
  (resolve_paths_override _ cexProjectDir none none cexOverride cexOverride).1 rfl

/-- C1 counterexample: with a bare path, a target output directory and a
target override all present, the resolved target path is not
`target_obj_dir.join(path)` — the output-directory rule does not win. -/
theorem resolve_paths_objdir_beats_override_cex :
    ¬((cexObject.resolve_paths cexProjectDir (some cexTargetDir) none).target_path =
        some (cexTargetDir.join cexUnitPath)) := by decide

/-- C1 (amended): when a side output directory, a bare declared source path
and an explicit override for that side are all present, the override wins:
the resolved path for that side is `project_dir.join(override)`, and the
output directory has no effect. -/
theorem resolve_paths_override_beats_objdir (obj : ProjectObject) (pd d d' : Path)
    (tod bod : Option Path) (p o ob : Path) :
    (obj.path = some p → obj.target_path = some o →
      (obj.resolve_paths pd (some d) bod).target_path = some (pd.join o)) ∧
    (obj.path = some p → obj.base_path = some ob →
      (obj.resolve_paths pd tod (some d')).base_path = some (pd.join ob)) := by
  rcases obj with ⟨n, p', tp, bp, r, c, s⟩
  constructor
  · rintro rfl rfl
    cases bod <;> cases bp <;> simp [ProjectObject.resolve_paths, ProjectObject.resolveTargetStep, ProjectObject.resolveBaseStep]
  · rintro rfl rfl
    cases tod <;> cases tp <;> simp [ProjectObject.resolve_paths, ProjectObject.resolveTargetStep, ProjectObject.resolveBaseStep]

/-- C1 (amended) witness: on the concrete object with bare path, target
directory and override, the resolved target path is the project-relative
override. -/
theorem resolve_paths_override_beats_objdir_witness :
    (cexObject.resolve_paths cexProjectDir (some cexTargetDir) none).target_path =
      some (cexProjectDir.join cexOverride) :=
  (resolve_paths_override_beats_objdir cexObject cexProjectDir cexTargetDir cexTargetDir
    (some cexTargetDir) none cexUnitPath cexOverride cexOverride).1 rfl rfl

/-- C5 counterexample: parsing a configuration with both build-side flags
absent does not give `build_target = true` with `build_base = false`. -/
theorem parse_build_flags_cex :
    ¬((deserializeProjectConfig ProjectConfigInput.empty).build_target = true ∧
      (deserializeProjectConfig ProjectConfigInput.empty).build_base = false) := by
  decide

/-- C5 (amended): after parsing a configuration in which the build-side
flags are absent, `build_target` is `false` and `build_base` is `true`. -/
theorem parse_build_flags_defaults (i : ProjectConfigInput)
    (ht : i.build_target = none) (hb : i.build_base = none) :
    (deserializeProjectConfig i).build_target = false ∧
    (deserializeProjectConfig i).build_base = true := by
  simp [deserializeProjectConfig, ht, hb]

/-- C5 (amended) witness: the all-absent document parses with
`build_target = false` and `build_base = true`. -/
theorem parse_build_flags_defaults_witness :
    (deserializeProjectConfig ProjectConfigInput.empty).build_target = false ∧
    (deserializeProjectConfig ProjectConfigInput.empty).build_base = true :=
  parse_build_flags_defaults ProjectConfigInput.empty rfl rfl

/-- C6 counterexample: parsing a configuration with no `watch_patterns`
field leaves the field `none`; it does not equal the default pattern list. -/
theorem parse_watch_patterns_cex :
    (deserializeProjectConfig ProjectConfigInput.empty).watch_patterns ≠
      some DEFAULT_WATCH_PATTERNS ∧
    (deserializeProjectConfig ProjectConfigInput.empty).watch_patterns = none := by
  constructor
  · simp [deserializeProjectConfig, ProjectConfigInput.empty]
  · rfl

/-- C6 (amended): parsing a configuration with no `watch_patterns` field
leaves `watch_patterns` absent (`none`); the documented default set is the
constant `DEFAULT_WATCH_PATTERNS`, which is not applied at parse time. -/
theorem parse_watch_patterns_absent (i : ProjectConfigInput)
    (h : i.watch_patterns = none) :
    (deserializeProjectConfig i).watch_patterns = none ∧
    DEFAULT_WATCH_PATTERNS =
      ["*.c", "*.cp", "*.cpp", "*.cxx", "*.h", "*.hp", "*.hpp", "*.hxx", "*.s", "*.S",
       "*.asm", "*.inc", "*.py", "*.yml", "*.txt", "*.json"] := by
  refine ⟨?_, rfl⟩
  simp [deserializeProjectConfig, h]

/-- C6 (amended) witness: the all-absent document parses with
`watch_patterns = none`. -/
theorem parse_watch_patterns_absent_witness :
    (deserializeProjectConfig ProjectConfigInput.empty).watch_patterns = none ∧
    DEFAULT_WATCH_PATTERNS =
      ["*.c", "*.cp", "*.cpp", "*.cxx", "*.h", "*.hp", "*.hpp", "*.hxx", "*.s", "*.S",
       "*.asm", "*.inc", "*.py", "*.yml", "*.txt", "*.json"] :=
  parse_watch_patterns_absent ProjectConfigInput.empty rfl

/-- C2: when `project_dir` is `None`, `run_make` returns a failure status
with empty `cmdline` (and `stdout`) and `stderr = "Missing project dir"`,
and the inner invocation — hence any process spawn — never runs. -/
theorem run_make_missing_project_dir (config : BuildConfig) (arg : Path)
    (inner : Path → Path → Except String BuildStatus)
    (h : config.project_dir = none) :
    run_make config arg inner =
      ({ success := false, cmdline := "", stdout := "", stderr := "Missing project dir" },
       false) := by
  rcases config with ⟨pdir, cm, wsl⟩
  simp only at h
  subst h
  rfl

/-- C2 witness: the concrete no-directory config short-circuits. -/
theorem run_make_missing_project_dir_witness :
    run_make witBuildCfgNoDir witArg witInnerErr =
      ({ success := false, cmdline := "", stdout := "", stderr := "Missing project dir" },
       false) :=
  run_make_missing_project_dir witBuildCfgNoDir witArg witInnerErr rfl

/-- C3: `run_make` never propagates an error: with a project directory
present, any error `e` of the inner invocation becomes a normal
`BuildStatus` with `success = false` and `stderr` the error's text. -/
theorem run_make_catches_errors (config : BuildConfig) (arg cwd : Path)
    (inner : Path → Path → Except String BuildStatus) (e : String)
    (h : config.project_dir = some cwd) (he : inner cwd arg = Except.error e) :
    run_make config arg inner =
      ({ success := false, cmdline := "", stdout := "", stderr := e }, true) := by
  rcases config with ⟨pdir, cm, wsl⟩
  simp only at h
  subst h
  simp [run_make, he]

/-- C3 witness: a concrete failing inner invocation is converted into a
failure status carrying its message. -/
theorem run_make_catches_errors_witness :
    run_make witBuildCfgDir witArg witInnerErr =
      ({ success := false, cmdline := "", stdout := "", stderr := "Failed to execute build" },
       true) :=
  run_make_catches_errors witBuildCfgDir witArg ⟨true, ["proj"]⟩ witInnerErr
    "Failed to execute build" rfl rfl

/-- C4: for a completed child process whose streams decode, `run_make_cmd`
returns a status whose `success` is `true` exactly when the exit code is
present and zero (a missing code counts as failure), and whose `stdout` and
`stderr` are the decoded captured streams regardless of success. -/
theorem run_make_cmd_status (config : BuildConfig) (arg : Path)
    (escape : String → String) (output : ProcOutput)
    (decode : List Nat → Option String) (out err : String)
    (h1 : decode output.stdout = some out) (h2 : decode output.stderr = some err) :
    ∃ st, run_make_cmd config arg escape (some output) decode = Except.ok st ∧
      (st.success = true ↔ output.code = some 0) ∧
      st.stdout = out ∧ st.stderr = err := by
  refine ⟨{ success := output.code.getD (-1) == 0
            cmdline := mkCmdline escape (config.custom_make.getD "make") [arg.toStr]
            stdout := out
            stderr := err }, ?_, ?_, rfl, rfl⟩
  · simp only [run_make_cmd, h1, h2]
  · simp only
    cases hc : output.code <;> simp

/-- C4 witness: a concrete exit-code-0 process yields a successful status
with the decoded streams. -/
theorem run_make_cmd_status_witness :
    ∃ st, run_make_cmd witBuildCfgDir witArg witEscape (some witOutput) witDecode =
        Except.ok st ∧
      (st.success = true ↔ witOutput.code = some 0) ∧
      st.stdout = "out-text" ∧ st.stderr = "err-text" :=
  run_make_cmd_status witBuildCfgDir witArg witEscape witOutput witDecode
    "out-text" "err-text" rfl rfl

/-- Helper: the discovery loop returns `none` exactly when no candidate in
the remaining list is a readable regular file. -/
theorem tryProjectConfigAux_eq_none_iff (fs : Path → FileStat)
    (pY pJ : String → Except String ProjectConfig) (dir : Path) (l : List String) :
    tryProjectConfigAux fs pY pJ dir l = none ↔
      ∀ n ∈ l, (fs (dir.join (Path.rel1 n))).isRegular = false := by
  induction l with
  | nil => simp [tryProjectConfigAux]
  | cons hd tl ih =>
    cases hfs : fs (dir.join (Path.rel1 hd)) <;>
      simp [tryProjectConfigAux, hfs, FileStat.isRegular, ih]

/-- Helper: the discovery loop stops at the first readable regular file and
parses it with the format chosen by its filename. -/
theorem tryProjectConfigAux_first (fs : Path → FileStat)
    (pY pJ : String → Except String ProjectConfig) (dir : Path) (ts : Nat) (c : String) :
    ∀ (pre : List String) (n : String) (rest : List String),
      (∀ m ∈ pre, (fs (dir.join (Path.rel1 m))).isRegular = false) →
      fs (dir.join (Path.rel1 n)) = FileStat.regular ts c →
      tryProjectConfigAux fs pY pJ dir (pre ++ n :: rest) =
        some (parseForFilename pY pJ n c, ⟨dir.join (Path.rel1 n), ts⟩) := by
  intro pre
  induction pre with
  | nil =>
    intro n rest _ hn
    simp [tryProjectConfigAux, hn]
  | cons hd tl ih =>
    intro n rest hpre hn
    have hhd : (fs (dir.join (Path.rel1 hd))).isRegular = false := hpre hd (by simp)
    have htl : ∀ m ∈ tl, (fs (dir.join (Path.rel1 m))).isRegular = false :=
      fun m hm => hpre m (List.mem_cons_of_mem hd hm)
    have hrec := ih n rest htl hn
    cases hfs : fs (dir.join (Path.rel1 hd)) with
    | regular ts' c' => rw [hfs] at hhd; simp [FileStat.isRegular] at hhd
    | openErr => simpa [tryProjectConfigAux, hfs] using hrec
    | metaErr => simpa [tryProjectConfigAux, hfs] using hrec
    | notFile => simpa [tryProjectConfigAux, hfs] using hrec

/-- C7: when more than one candidate config filename is a regular file,
`try_project_config` reads and parses exactly the first matching name in the
fixed order `objdiff.yml`, `objdiff.yaml`, `objdiff.json` (JSON for the name
containing "json", YAML otherwise), stops there, and returns `some`; and it
returns `none` only when no candidate is a readable regular file. -/
theorem try_project_config_first_match (fs : Path → FileStat)
    (pY pJ : String → Except String ProjectConfig) (dir : Path)
    (pre : List String) (n : String) (rest : List String) (ts : Nat) (c : String)
    (hsplit : CONFIG_FILENAMES = pre ++ n :: rest)
    (hpre : ∀ m ∈ pre, (fs (dir.join (Path.rel1 m))).isRegular = false)
    (hn : fs (dir.join (Path.rel1 n)) = FileStat.regular ts c)
    (_hmulti : 1 < (CONFIG_FILENAMES.filter
        (fun m => (fs (dir.join (Path.rel1 m))).isRegular)).length) :
    try_project_config fs pY pJ dir =
      some (parseForFilename pY pJ n c, ⟨dir.join (Path.rel1 n), ts⟩) ∧
    (∀ fs' : Path → FileStat, try_project_config fs' pY pJ dir = none →
      ∀ m ∈ CONFIG_FILENAMES, (fs' (dir.join (Path.rel1 m))).isRegular = false) := by
  constructor
  · rw [try_project_config, hsplit]
    exact tryProjectConfigAux_first fs pY pJ dir ts c pre n rest hpre hn
  · intro fs' h
    exact (tryProjectConfigAux_eq_none_iff fs' pY pJ dir CONFIG_FILENAMES).1 h

/-- C7 witness: with `objdiff.yml` unreadable and both `objdiff.yaml` and
`objdiff.json` regular files, discovery returns the parsed `objdiff.yaml`. -/
theorem try_project_config_first_match_witness :
    try_project_config witFs witParseYml witParseJson witDir =
      some (parseForFilename witParseYml witParseJson "objdiff.yaml" "yaml-doc",
            ⟨witDir.join (Path.rel1 "objdiff.yaml"), 5⟩) :=
  (try_project_config_first_match witFs witParseYml witParseJson witDir
    ["objdiff.yml"] "objdiff.yaml" ["objdiff.json"] 5 "yaml-doc"
    (by decide) (by decide) (by decide) (by decide)).1

end Objdiff
